import Mathlib

/-!
Shallow embedding of the authentication core of the Contact-Book repository
(src/services/auth.py, src/services/roles.py, src/repository/users.py,
src/entity/models.py), together with models of the external collaborators it
drives: the python-jose JWT codec, the redis cache, pickle serialization and
the passlib password context.  Time is an integer count of seconds and is
passed explicitly where the source calls datetime.utcnow().
-/

namespace ContactBook

/-- A JSON-style claim value as it appears in a JWT payload dict.  Numeric
timestamps (iat, exp) are integers of seconds. -/
inductive JValue where
  | str (s : String)
  | num (n : Int)
  | null
  deriving DecidableEq, Repr

/-- A Python dict of JWT claims, observed through key lookup. -/
def Claims : Type := List (String × JValue)

instance : DecidableEq Claims := by
  unfold Claims
  infer_instance

instance : Repr Claims := by
  unfold Claims
  infer_instance

/-- Dict key lookup: first binding wins (Claims.set keeps at most one binding
per key). -/
def Claims.lookup : Claims → String → Option JValue
  | [], _ => none
  | kv :: rest, k => if kv.1 = k then some kv.2 else Claims.lookup rest k

/-- Python dict assignment d[k] = v: the old binding for k, if any, is
replaced. -/
def Claims.set (c : Claims) (k : String) (v : JValue) : Claims :=
  (k, v) :: c.filter (fun kv => kv.1 ≠ k)

/-- Python str() of a claim value, used when the code builds the cache key
with str(email). -/
def pyStr : JValue → String
  | .str s => s
  | .num n => toString n
  | .null => "None"

/-- Serialization of a claim value used by the signature model. -/
def JValue.ser : JValue → String
  | .str s => "s:" ++ s
  | .num n => "n:" ++ toString n
  | .null => "null"

/-- Serialization of a claim set used by the signature model. -/
def Claims.ser (c : Claims) : String :=
  c.foldl (fun acc kv => acc ++ "|" ++ kv.1 ++ "=" ++ kv.2.ser) ""

/-- Stand-in for the HMAC tag of python-jose: a concrete function of the
secret key and the serialized claim set.  Decode recomputes it and compares,
so a token whose tag field differs from the recomputed tag is rejected,
exactly as a bad signature is. -/
def sigOf (key : String) (c : Claims) : Nat :=
  (key ++ "#" ++ c.ser).length

/-- A JWT as produced by jose.jwt.encode: the signed claim set plus the tag
over it. -/
structure Token where
  claims : Claims
  sig : Nat
  deriving DecidableEq, Repr

/-- Model of jose.jwt.encode(claims, key, algorithm): signs the whole claim
set. -/
def jwt_encode (c : Claims) (key : String) : Token :=
  ⟨c, sigOf key c⟩

/-- The JWTError hierarchy of python-jose that jwt.decode raises: bad
signature, ExpiredSignatureError, or JWTClaimsError from claim
validation. -/
inductive JWTError where
  | signatureInvalid
  | expired
  | claimsError
  deriving DecidableEq, Repr

/-- Model of jose.jwt.decode(token, key, algorithms) with default options,
at wall-clock time now: verifies the tag, then validates claims — exp must
be numeric and not in the past (strictly: it fails when exp < now, with no
leeway), and sub, when present, must be a string.  The iat/nbf/aud/jti
validations of python-jose are not modelled; every token issued by this
code carries a numeric iat and none of nbf/aud/jti, and theorems that range
over caller payloads assume those keys absent. -/
def jwt_decode (t : Token) (key : String) (now : Int) : Except JWTError Claims :=
  if t.sig = sigOf key t.claims then
    match t.claims.lookup "exp" with
    | some (.num e) =>
        if e < now then .error .expired
        else
          match t.claims.lookup "sub" with
          | some (.str _) => .ok t.claims
          | some _ => .error .claimsError
          | none => .ok t.claims
    | some _ => .error .claimsError
    | none =>
        match t.claims.lookup "sub" with
        | some (.str _) => .ok t.claims
        | some _ => .error .claimsError
        | none => .ok t.claims
  else .error .signatureInvalid

/-- An HTTPException raised by the service layer: status code and detail
message. -/
structure HTTPError where
  status : Nat
  detail : String
  deriving DecidableEq, Repr

/-- The credentials_exception of Auth.get_current_user. -/
def credentials_exception : HTTPError :=
  ⟨401, "Could not validate credentials"⟩

/-- Outcome of a Python call: a value, a raised HTTPException, or an
uncaught Python exception (for example KeyError) that escapes the function
and is not an HTTP error at all. -/
inductive PyResult (α : Type) where
  | ok (a : α)
  | httpError (e : HTTPError)
  | pyError (name : String)
  deriving DecidableEq, Repr

/-- The Role enum of src/entity/models.py. -/
inductive Role where
  | admin
  | moderator
  | user
  deriving DecidableEq, Repr

/-- A row of the users table (src/entity/models.py, class User), as resolved
by the authenticator.  Timestamps of the row are irrelevant to every claim
and omitted. -/
structure UserRecord where
  id : Nat
  username : String
  email : String
  password : String
  avatar : Option String
  refresh_token : Option String
  role : Role
  confirmed : Bool
  deriving DecidableEq, Repr

/-- A pickle.dumps blob: an opaque serialized snapshot of a user record,
interpreted only by pickle.loads. -/
structure Pickled where
  data : UserRecord
  deriving DecidableEq, Repr

/-- Model of pickle.dumps on a user record. -/
def pickle_dumps (u : UserRecord) : Pickled := ⟨u⟩

/-- Model of pickle.loads on a cached blob. -/
def pickle_loads (p : Pickled) : UserRecord := p.data

/-- Model of the redis cache: bindings from string key to blob plus an
optional expiry deadline (absolute time).  A read at or past the deadline
behaves as absent. -/
structure RedisCache where
  entries : List (String × Pickled × Option Int)
  deriving DecidableEq, Repr

/-- First cache binding for a key: the blob and its optional deadline. -/
def cacheFind : List (String × Pickled × Option Int) → String → Option (Pickled × Option Int)
  | [], _ => none
  | e :: rest, k => if e.1 = k then some e.2 else cacheFind rest k

/-- redis GET at wall-clock time now: the stored blob, or none when the key
is absent or its deadline has passed. -/
def RedisCache.get (c : RedisCache) (k : String) (now : Int) : Option Pickled :=
  match cacheFind c.entries k with
  | some (v, some dl) => if now < dl then some v else none
  | some (v, none) => some v
  | none => none

/-- redis SET: binds the key to the blob and discards any previous binding
and its deadline. -/
def RedisCache.set (c : RedisCache) (k : String) (v : Pickled) : RedisCache :=
  ⟨(k, v, none) :: c.entries.filter (fun e => e.1 ≠ k)⟩

/-- redis EXPIRE key ttl at wall-clock time now: stamps the binding for the
key with the deadline now + ttl. -/
def RedisCache.expire (c : RedisCache) (k : String) (ttl : Int) (now : Int) : RedisCache :=
  ⟨c.entries.map (fun e => if e.1 = k then (e.1, e.2.1, some (now + ttl)) else e)⟩

/-- The external user store: the users table, queried by email. -/
def Db : Type := List UserRecord

instance : DecidableEq Db := by
  unfold Db
  infer_instance

/-- src/repository/users.py get_user_by_email: select by email,
scalar_one_or_none.  Email is unique by schema, so the first match is the
row. -/
def get_user_by_email (email : String) (db : Db) : Option UserRecord :=
  db.find? (fun u => u.email = email)

namespace Auth

/-- The Python pattern "if expires_delta: ... else default": the caller ttl
is used when it is truthy (not None and nonzero), the default otherwise. -/
def pyTruthyTtl (expires_delta : Option Int) (default : Int) : Int :=
  match expires_delta with
  | some d => if d = 0 then default else d
  | none => default

/-- Auth.create_access_token (src/services/auth.py lines 61-79): copies the
caller dict, computes expiry as now plus expires_delta seconds when that
argument is truthy (Python: not None and nonzero) and now plus 15 minutes
otherwise, then overwrites iat, exp and scope = "access_token" and signs.
The two datetime.utcnow() calls of the source are modelled as the single
instant now. -/
def create_access_token (data : Claims) (expires_delta : Option Int) (now : Int)
    (key : String) : Token :=
  let expire : Int := now + pyTruthyTtl expires_delta 900
  let to_encode :=
    ((data.set "iat" (.num now)).set "exp" (.num expire)).set "scope" (.str "access_token")
  jwt_encode to_encode key

/-- Auth.create_refresh_token (lines 81-99): as create_access_token with
default ttl 7 days and scope "refresh_token". -/
def create_refresh_token (data : Claims) (expires_delta : Option Int) (now : Int)
    (key : String) : Token :=
  let expire : Int := now + pyTruthyTtl expires_delta 604800
  let to_encode :=
    ((data.set "iat" (.num now)).set "exp" (.num expire)).set "scope" (.str "refresh_token")
  jwt_encode to_encode key

/-- Auth.create_email_token (lines 170-184): copies the caller dict, expiry
fixed at now plus 2 days, overwrites iat and exp — and no other key: in
particular no scope claim is written — then signs. -/
def create_email_token (data : Claims) (now : Int) (key : String) : Token :=
  let expire : Int := now + 172800
  let to_encode := (data.set "iat" (.num now)).set "exp" (.num expire)
  jwt_encode to_encode key

/-- Auth.decode_refresh_token (lines 101-121): jwt.decode inside a try that
catches only JWTError (mapped to 401 with the generic detail); on success,
payload["scope"] is compared with "refresh_token" — equality returns
payload["sub"], inequality raises 401 with detail "Invalid scope for
token"; an absent scope or sub key raises KeyError, which is not a JWTError
and escapes the function. -/
def decode_refresh_token (t : Token) (key : String) (now : Int) : PyResult JValue :=
  match jwt_decode t key now with
  | .error _ => .httpError ⟨401, "Could not validate credentials"⟩
  | .ok payload =>
    match payload.lookup "scope" with
    | none => .pyError "KeyError"
    | some sc =>
      if sc = .str "refresh_token" then
        match payload.lookup "sub" with
        | none => .pyError "KeyError"
        | some s => .ok s
      else .httpError ⟨401, "Invalid scope for token"⟩

/-- Auth.get_email_from_token (lines 186-206): jwt.decode inside a try that
catches only JWTError (mapped to 422 "Invalid token for email
verification"); on success returns payload["sub"] with no scope check of
any kind; an absent sub key raises KeyError, which escapes. -/
def get_email_from_token (t : Token) (key : String) (now : Int) : PyResult JValue :=
  match jwt_decode t key now with
  | .error _ => .httpError ⟨422, "Invalid token for email verification"⟩
  | .ok payload =>
    match payload.lookup "sub" with
    | none => .pyError "KeyError"
    | some s => .ok s

/-- Result of Auth.get_current_user: the returned user or raised error, the
cache state after the call, and how many times the external user store was
queried. -/
structure AuthOutcome where
  result : PyResult UserRecord
  cache : RedisCache
  dbLookups : Nat
  deriving DecidableEq, Repr

/-- Auth.get_current_user (lines 123-168): decode the bearer token (any
JWTError becomes the generic 401); require scope == "access_token" (else
the generic 401; an absent scope key is a KeyError that escapes); read
sub (absent key is a KeyError; a None value raises the generic 401, a path
python-jose makes unreachable since it rejects non-string sub claims);
then look the subject up in the cache under key str(email) — a hit is
deserialized with pickle.loads and returned with no store query and no
cache write; a miss queries the store by email, raising the generic 401
when no user exists, and otherwise caches pickle.dumps(user) under the
email key, stamps it with EXPIRE 300, and returns the user.  A non-string
subject value cannot match any row of the users table. -/
def get_current_user (t : Token) (key : String) (now : Int) (cache : RedisCache)
    (db : Db) : AuthOutcome :=
  match jwt_decode t key now with
  | .error _ => ⟨.httpError credentials_exception, cache, 0⟩
  | .ok payload =>
    match payload.lookup "scope" with
    | none => ⟨.pyError "KeyError", cache, 0⟩
    | some sc =>
      if sc = .str "access_token" then
        match payload.lookup "sub" with
        | none => ⟨.pyError "KeyError", cache, 0⟩
        | some email =>
          if email = .null then ⟨.httpError credentials_exception, cache, 0⟩
          else
            let user_hash := pyStr email
            match cache.get user_hash now with
            | some blob => ⟨.ok (pickle_loads blob), cache, 0⟩
            | none =>
              let fromDb :=
                match email with
                | .str s => get_user_by_email s db
                | _ => none
              match fromDb with
              | none => ⟨.httpError credentials_exception, cache, 1⟩
              | some user =>
                let c1 := cache.set user_hash (pickle_dumps user)
                let c2 := c1.expire user_hash 300 now
                ⟨.ok user, c2, 1⟩
      else ⟨.httpError credentials_exception, cache, 0⟩

end Auth

/-- The error passlib raises when the stored hash matches no configured
scheme (passlib.exc.UnknownHashError, a ValueError). -/
inductive PasslibError where
  | unknownHashError
  deriving DecidableEq, Repr

/-- Whether the first list of characters opens the second one. -/
def charListLeads : List Char → List Char → Bool
  | [], _ => true
  | _ :: _, [] => false
  | a :: as, b :: bs => a = b && charListLeads as bs

/-- Whether the hash string opens with one of the modular-crypt markers of
bcrypt, the only scheme the CryptContext of src/services/auth.py
(schemes=["bcrypt"]) can identify. -/
def bcrypt_identify (h : String) : Bool :=
  charListLeads "$2b$".data h.data || charListLeads "$2a$".data h.data ||
    charListLeads "$2y$".data h.data

/-- Model of CryptContext.verify of passlib for schemes=["bcrypt"]: a hash
that no configured scheme identifies raises UnknownHashError; an identified
hash is checked by the bcrypt backend, abstracted here as an arbitrary
boolean function check of the plaintext and the hash, since its internals
live outside the repository. -/
def pwd_context_verify (check : String → String → Bool) (plain : String)
    (hashed : String) : Except PasslibError Bool :=
  if bcrypt_identify hashed then .ok (check plain hashed)
  else .error .unknownHashError

/-- Auth.verify_password (src/services/auth.py lines 34-45): a bare call to
pwd_context.verify with no exception handling, so whatever passlib raises
escapes. -/
def verify_password (check : String → String → Bool) (plain : String)
    (hashed : String) : Except PasslibError Bool :=
  pwd_context_verify check plain hashed

/-- RoleAccess.__call__ (src/services/roles.py lines 25-44): with the user
already resolved by get_current_user, raises 403 "FORBIDDEN" when the role
is not in the allowed list and returns None otherwise.  The check reads
only the user and the configured list and writes nothing. -/
def roleAccessCall (allowed_roles : List Role) (user : UserRecord) :
    Except HTTPError Unit :=
  if user.role ∈ allowed_roles then .ok ()
  else .error ⟨403, "FORBIDDEN"⟩

/-- The two token kinds whose creation takes a caller payload and an
optional ttl and whose decode paths check an expected scope. -/
inductive TokenKind where
  | access
  | refresh
  deriving DecidableEq, Repr

/-- The creation operation of each kind. -/
def TokenKind.create : TokenKind → Claims → Option Int → Int → String → Token
  | .access => Auth.create_access_token
  | .refresh => Auth.create_refresh_token

/-- The scope tag each kind writes. -/
def TokenKind.scopeStr : TokenKind → String
  | .access => "access_token"
  | .refresh => "refresh_token"

/-- The default ttl of each kind: 15 minutes for access, 7 days for
refresh. -/
def TokenKind.defaultTtl : TokenKind → Int
  | .access => 900
  | .refresh => 604800

/-! ### Lemmas about dict lookup and the signed claim sets of created tokens -/

theorem Claims.lookup_set_self (c : Claims) (k : String) (v : JValue) :
    (c.set k v).lookup k = some v := by
  unfold Claims.set
  simp [Claims.lookup]

theorem lookup_filter_ne (c : Claims) (k k2 : String) (h : k2 ≠ k) :
    Claims.lookup (List.filter (fun kv => kv.1 ≠ k) c) k2 = Claims.lookup c k2 := by
  induction c with
  | nil => rfl
  | cons hd tl ih =>
    by_cases hk : hd.1 = k
    · have hp : ¬ ((fun kv => decide ((kv : String × JValue).1 ≠ k)) hd = true) := by
        simp [hk]
      have h2 : ¬ hd.1 = k2 := by
        rw [hk]
        exact fun he => h he.symm
      rw [List.filter_cons, if_neg hp, ih]
      simp only [Claims.lookup]
      rw [if_neg h2]
    · have hp : ((fun kv => decide ((kv : String × JValue).1 ≠ k)) hd = true) := by
        simp [hk]
      rw [List.filter_cons, if_pos hp]
      simp only [Claims.lookup]
      by_cases h2 : hd.1 = k2
      · rw [if_pos h2, if_pos h2]
      · rw [if_neg h2, if_neg h2, ih]

theorem Claims.lookup_set_ne (c : Claims) (k k2 : String) (v : JValue) (h : k2 ≠ k) :
    (c.set k v).lookup k2 = c.lookup k2 := by
  unfold Claims.set
  simp only [Claims.lookup]
  have hne : ¬ ((k, v).1 = k2) := fun he => h he.symm
  rw [if_neg hne]
  exact lookup_filter_ne c k k2 h

/-- The claim set a created access or refresh token carries, as the three
dict updates of the source. -/
theorem TokenKind.create_claims (k : TokenKind) (data : Claims) (d : Option Int)
    (now : Int) (key : String) :
    (k.create data d now key).claims =
      ((data.set "iat" (.num now)).set "exp"
        (.num (now + Auth.pyTruthyTtl d k.defaultTtl))).set "scope" (.str k.scopeStr) := by
  cases k <;> rfl

theorem TokenKind.create_lookup_scope (k : TokenKind) (data : Claims) (d : Option Int)
    (now : Int) (key : String) :
    (k.create data d now key).claims.lookup "scope" = some (.str k.scopeStr) := by
  rw [k.create_claims]
  exact Claims.lookup_set_self _ _ _

theorem TokenKind.create_lookup_exp (k : TokenKind) (data : Claims) (d : Option Int)
    (now : Int) (key : String) :
    (k.create data d now key).claims.lookup "exp" =
      some (.num (now + Auth.pyTruthyTtl d k.defaultTtl)) := by
  rw [k.create_claims]
  rw [Claims.lookup_set_ne _ _ _ _ (by decide)]
  exact Claims.lookup_set_self _ _ _

theorem TokenKind.create_lookup_iat (k : TokenKind) (data : Claims) (d : Option Int)
    (now : Int) (key : String) :
    (k.create data d now key).claims.lookup "iat" = some (.num now) := by
  rw [k.create_claims]
  rw [Claims.lookup_set_ne _ _ _ _ (by decide), Claims.lookup_set_ne _ _ _ _ (by decide)]
  exact Claims.lookup_set_self _ _ _

theorem TokenKind.create_lookup_other (k : TokenKind) (data : Claims) (d : Option Int)
    (now : Int) (key : String) (f : String)
    (h1 : f ≠ "iat") (h2 : f ≠ "exp") (h3 : f ≠ "scope") :
    (k.create data d now key).claims.lookup f = data.lookup f := by
  rw [k.create_claims]
  rw [Claims.lookup_set_ne _ _ _ _ h3, Claims.lookup_set_ne _ _ _ _ h2,
    Claims.lookup_set_ne _ _ _ _ h1]

/-- The signed structure of a created token: both kinds sign with
jwt_encode, so the tag always matches the claim set. -/
theorem TokenKind.create_sig (k : TokenKind) (data : Claims) (d : Option Int)
    (now : Int) (key : String) :
    (k.create data d now key).sig = sigOf key (k.create data d now key).claims := by
  cases k <;> rfl

/-! ### Lemmas about jwt_decode and the decode paths of the service -/

theorem jwt_decode_ok (t : Token) (key : String) (now : Int) (e : Int)
    (hsig : t.sig = sigOf key t.claims)
    (hexp : t.claims.lookup "exp" = some (.num e))
    (hfresh : ¬ e < now)
    (hsub : t.claims.lookup "sub" = none ∨ ∃ s, t.claims.lookup "sub" = some (.str s)) :
    jwt_decode t key now = .ok t.claims := by
  unfold jwt_decode
  rcases hsub with h | ⟨s, h⟩ <;> simp [hsig, hexp, h, hfresh]

theorem jwt_decode_sig_fail (t : Token) (key : String) (now : Int)
    (hsig : t.sig ≠ sigOf key t.claims) :
    jwt_decode t key now = .error .signatureInvalid := by
  unfold jwt_decode
  rw [if_neg hsig]

theorem jwt_decode_expired_any (t : Token) (key : String) (now : Int) (e : Int)
    (hexp : t.claims.lookup "exp" = some (.num e)) (h : e < now) :
    ∃ err, jwt_decode t key now = .error err := by
  unfold jwt_decode
  by_cases hsig : t.sig = sigOf key t.claims
  · exact ⟨.expired, by simp [hsig, hexp, h]⟩
  · exact ⟨.signatureInvalid, by rw [if_neg hsig]⟩

theorem jwt_decode_null_sub_any (t : Token) (key : String) (now : Int)
    (hsub : t.claims.lookup "sub" = some .null) :
    ∃ err, jwt_decode t key now = .error err := by
  unfold jwt_decode
  by_cases hsig : t.sig = sigOf key t.claims
  · rw [if_pos hsig]
    cases hexp : t.claims.lookup "exp" with
    | none => exact ⟨.claimsError, by simp [hsub]⟩
    | some v =>
      cases v with
      | num e =>
        by_cases h : e < now
        · exact ⟨.expired, by simp [h]⟩
        · exact ⟨.claimsError, by simp [h, hsub]⟩
      | str s => exact ⟨.claimsError, by simp⟩
      | null => exact ⟨.claimsError, by simp⟩
  · exact ⟨.signatureInvalid, by rw [if_neg hsig]⟩

theorem get_current_user_decode_error (t : Token) (key : String) (now : Int)
    (cache : RedisCache) (db : Db) (err : JWTError)
    (h : jwt_decode t key now = .error err) :
    Auth.get_current_user t key now cache db = ⟨.httpError credentials_exception, cache, 0⟩ := by
  unfold Auth.get_current_user
  rw [h]

theorem decode_refresh_token_decode_error (t : Token) (key : String) (now : Int)
    (err : JWTError) (h : jwt_decode t key now = .error err) :
    Auth.decode_refresh_token t key now = .httpError credentials_exception := by
  unfold Auth.decode_refresh_token
  rw [h]
  rfl

theorem get_current_user_wrong_scope (t : Token) (key : String) (now : Int)
    (cache : RedisCache) (db : Db) (payload : Claims) (sc : JValue)
    (hdec : jwt_decode t key now = .ok payload)
    (hsc : payload.lookup "scope" = some sc)
    (hne : sc ≠ .str "access_token") :
    Auth.get_current_user t key now cache db = ⟨.httpError credentials_exception, cache, 0⟩ := by
  unfold Auth.get_current_user
  rw [hdec]
  simp only [hsc]
  rw [if_neg hne]

theorem decode_refresh_token_wrong_scope (t : Token) (key : String) (now : Int)
    (payload : Claims) (sc : JValue)
    (hdec : jwt_decode t key now = .ok payload)
    (hsc : payload.lookup "scope" = some sc)
    (hne : sc ≠ .str "refresh_token") :
    Auth.decode_refresh_token t key now = .httpError ⟨401, "Invalid scope for token"⟩ := by
  unfold Auth.decode_refresh_token
  rw [hdec]
  simp only [hsc]
  rw [if_neg hne]

/-- The whole behavior of get_current_user on a well-formed access token
whose subject is the string email, as a function of the cache and store
contents. -/
theorem get_current_user_access_ok (data : Claims) (d : Option Int) (now nowD : Int)
    (key : String) (cache : RedisCache) (db : Db) (email : String)
    (hsub : data.lookup "sub" = some (.str email))
    (hfresh : ¬ (now + Auth.pyTruthyTtl d 900) < nowD) :
    Auth.get_current_user (Auth.create_access_token data d now key) key nowD cache db =
      match cache.get email nowD with
      | some blob => ⟨.ok (pickle_loads blob), cache, 0⟩
      | none =>
        match get_user_by_email email db with
        | none => ⟨.httpError credentials_exception, cache, 1⟩
        | some user => ⟨.ok user, (cache.set email (pickle_dumps user)).expire email 300 nowD, 1⟩ := by
  have hacc : TokenKind.access.create data d now key = Auth.create_access_token data d now key := rfl
  have hsub2 : (Auth.create_access_token data d now key).claims.lookup "sub" = some (.str email) := by
    rw [← hacc, TokenKind.create_lookup_other _ _ _ _ _ _ (by decide) (by decide) (by decide), hsub]
  have hdec : jwt_decode (Auth.create_access_token data d now key) key nowD =
      .ok (Auth.create_access_token data d now key).claims := by
    apply jwt_decode_ok _ _ _ (now + Auth.pyTruthyTtl d 900)
    · rw [← hacc]
      exact TokenKind.create_sig _ _ _ _ _
    · rw [← hacc]
      exact TokenKind.create_lookup_exp _ _ _ _ _
    · exact hfresh
    · exact Or.inr ⟨email, hsub2⟩
  have hsc : (Auth.create_access_token data d now key).claims.lookup "scope" =
      some (.str "access_token") := by
    rw [← hacc]
    exact TokenKind.create_lookup_scope _ _ _ _ _
  unfold Auth.get_current_user
  rw [hdec]
  simp [hsc, hsub2, pyStr]

/-! ### Claim theorems -/

/-- C6: for every valid combination of caller payload, scope and ttl — the
codec offers a payload-and-ttl create and a scope-checked decode for the
access and refresh kinds — decoding the created token with the same key
before its expiry succeeds and returns exactly the original payload fields
plus the reserved iat, exp and scope claims, the scope claim being the tag
of the same expected scope, so the scope equality check of the matching
decode path passes.  The hypotheses on sub, nbf, aud and jti keep the
payload inside what the claim validation of python-jose accepts. -/
theorem token_roundtrip (k : TokenKind) (data : Claims) (d : Option Int)
    (now nowD : Int) (key : String)
    (hsub : data.lookup "sub" = none ∨ ∃ s, data.lookup "sub" = some (JValue.str s))
    (hnbf : data.lookup "nbf" = none) (haud : data.lookup "aud" = none)
    (hjti : data.lookup "jti" = none)
    (hfresh : nowD ≤ now + Auth.pyTruthyTtl d k.defaultTtl) :
    jwt_decode (k.create data d now key) key nowD = .ok (k.create data d now key).claims ∧
    (k.create data d now key).claims.lookup "iat" = some (.num now) ∧
    (k.create data d now key).claims.lookup "exp" =
      some (.num (now + Auth.pyTruthyTtl d k.defaultTtl)) ∧
    (k.create data d now key).claims.lookup "scope" = some (.str k.scopeStr) ∧
    ∀ f, f ≠ "iat" → f ≠ "exp" → f ≠ "scope" →
      (k.create data d now key).claims.lookup f = data.lookup f := by
  have hfresh2 : ¬ (now + Auth.pyTruthyTtl d k.defaultTtl) < nowD := not_lt.mpr hfresh
  have hsubtok : (k.create data d now key).claims.lookup "sub" = data.lookup "sub" :=
    TokenKind.create_lookup_other _ _ _ _ _ _ (by decide) (by decide) (by decide)
  refine ⟨?_, TokenKind.create_lookup_iat _ _ _ _ _, TokenKind.create_lookup_exp _ _ _ _ _,
    TokenKind.create_lookup_scope _ _ _ _ _,
    fun f h1 h2 h3 => TokenKind.create_lookup_other _ _ _ _ _ _ h1 h2 h3⟩
  apply jwt_decode_ok _ _ _ (now + Auth.pyTruthyTtl d k.defaultTtl)
    (TokenKind.create_sig _ _ _ _ _) (TokenKind.create_lookup_exp _ _ _ _ _) hfresh2
  rw [hsubtok]
  exact hsub

/-- C6 witness: the round-trip evaluated for a refresh token carrying
subject a@x.com, created and decoded at time 0. -/
theorem token_roundtrip_witness :
    (0 : Int) ≤ 0 + Auth.pyTruthyTtl none TokenKind.refresh.defaultTtl ∧
    jwt_decode (TokenKind.refresh.create [("sub", JValue.str "a@x.com")] none 0 "secret")
        "secret" 0 =
      .ok (TokenKind.refresh.create [("sub", JValue.str "a@x.com")] none 0 "secret").claims :=
  ⟨by decide,
    (token_roundtrip .refresh [("sub", JValue.str "a@x.com")] none 0 0 "secret"
      (Or.inr ⟨"a@x.com", by decide⟩) (by decide) (by decide) (by decide) (by decide)).1⟩

/-- C10: for every caller payload — including one that already binds iat,
exp or scope — create_access_token and create_refresh_token overwrite the
reserved keys with their own values, so the scope claim of the issued token
is always access_token, respectively refresh_token, and a caller cannot
mint a token of a different scope through the payload argument. -/
theorem create_tokens_force_scope (data : Claims) (d : Option Int) (now : Int) (key : String) :
    (Auth.create_access_token data d now key).claims.lookup "scope" =
      some (.str "access_token") ∧
    (Auth.create_refresh_token data d now key).claims.lookup "scope" =
      some (.str "refresh_token") ∧
    (Auth.create_access_token data d now key).claims.lookup "iat" = some (.num now) ∧
    (Auth.create_access_token data d now key).claims.lookup "exp" =
      some (.num (now + Auth.pyTruthyTtl d 900)) ∧
    (Auth.create_refresh_token data d now key).claims.lookup "iat" = some (.num now) ∧
    (Auth.create_refresh_token data d now key).claims.lookup "exp" =
      some (.num (now + Auth.pyTruthyTtl d 604800)) :=
  ⟨TokenKind.create_lookup_scope .access data d now key,
   TokenKind.create_lookup_scope .refresh data d now key,
   TokenKind.create_lookup_iat .access data d now key,
   TokenKind.create_lookup_exp .access data d now key,
   TokenKind.create_lookup_iat .refresh data d now key,
   TokenKind.create_lookup_exp .refresh data d now key⟩

/-- C2 counterexample: the email-verification token minted for subject
a@x.com at time 0 carries no scope claim at all, against the claim that
every token-creation operation adds the scope tag. -/
theorem create_email_token_no_scope_claim :
    (Auth.create_email_token [("sub", JValue.str "a@x.com")] 0 "k").claims.lookup "scope" =
      none := by
  decide

/-- C2 amended: access and refresh creation add iat = now, exp = now + ttl
with defaults of 15 minutes and 7 days, and their scope tag; email
creation adds only iat = now and exp = now + 2 days and writes no scope
claim, leaving any caller-supplied scope binding untouched. -/
theorem create_tokens_reserved_claims (data : Claims) (d : Option Int) (now : Int)
    (key : String) :
    (Auth.create_access_token data d now key).claims.lookup "iat" = some (.num now) ∧
    (Auth.create_access_token data d now key).claims.lookup "exp" =
      some (.num (now + Auth.pyTruthyTtl d 900)) ∧
    (Auth.create_access_token data d now key).claims.lookup "scope" =
      some (.str "access_token") ∧
    (Auth.create_refresh_token data d now key).claims.lookup "iat" = some (.num now) ∧
    (Auth.create_refresh_token data d now key).claims.lookup "exp" =
      some (.num (now + Auth.pyTruthyTtl d 604800)) ∧
    (Auth.create_refresh_token data d now key).claims.lookup "scope" =
      some (.str "refresh_token") ∧
    (Auth.create_email_token data now key).claims.lookup "iat" = some (.num now) ∧
    (Auth.create_email_token data now key).claims.lookup "exp" =
      some (.num (now + 172800)) ∧
    (Auth.create_email_token data now key).claims.lookup "scope" = data.lookup "scope" := by
  have he : (Auth.create_email_token data now key).claims =
      (data.set "iat" (.num now)).set "exp" (.num (now + 172800)) := rfl
  refine ⟨TokenKind.create_lookup_iat .access data d now key,
    TokenKind.create_lookup_exp .access data d now key,
    TokenKind.create_lookup_scope .access data d now key,
    TokenKind.create_lookup_iat .refresh data d now key,
    TokenKind.create_lookup_exp .refresh data d now key,
    TokenKind.create_lookup_scope .refresh data d now key, ?_, ?_, ?_⟩
  · rw [he, Claims.lookup_set_ne _ _ _ _ (by decide)]
    exact Claims.lookup_set_self _ _ _
  · rw [he]
    exact Claims.lookup_set_self _ _ _
  · rw [he, Claims.lookup_set_ne _ _ _ _ (by decide), Claims.lookup_set_ne _ _ _ _ (by decide)]

/-- C8: for every configured allow-list and every resolved user, the role
gate returns exactly when the role of the user belongs to the list and
raises 403 FORBIDDEN exactly when it does not; an empty allow-list rejects
every user.  The gate is a pure function of the list and the user: it
touches no cache, store or token state. -/
theorem role_gate_membership (allowed : List Role) (user : UserRecord) :
    (roleAccessCall allowed user = .ok () ↔ user.role ∈ allowed) ∧
    (roleAccessCall allowed user = .error ⟨403, "FORBIDDEN"⟩ ↔ user.role ∉ allowed) ∧
    roleAccessCall [] user = .error ⟨403, "FORBIDDEN"⟩ := by
  unfold roleAccessCall
  by_cases h : user.role ∈ allowed <;> simp [h]

/-- C8 witness: a standard user against the allow-list of admin and
moderator is rejected with 403. -/
theorem role_gate_membership_witness :
    roleAccessCall [Role.admin, Role.moderator]
        ⟨1, "ann", "a@x.com", "hash", none, none, Role.user, true⟩ =
      .error ⟨403, "FORBIDDEN"⟩ :=
  (role_gate_membership [Role.admin, Role.moderator]
    ⟨1, "ann", "a@x.com", "hash", none, none, Role.user, true⟩).2.1.mpr (by decide)

/-- C9: the code evaluated at the failing input of the claim: for every
bcrypt backend behavior and every plaintext, verify_password on the stored
hash "not-a-hash" — which no configured scheme identifies — propagates
UnknownHashError instead of returning false, because the source wraps
pwd_context.verify in no exception handler. -/
theorem verify_password_malformed_hash_raises (check : String → String → Bool)
    (plain : String) :
    verify_password check plain "not-a-hash" = .error .unknownHashError := by
  have h : bcrypt_identify "not-a-hash" = false := by decide
  simp [verify_password, pwd_context_verify, h]

theorem jwt_decode_create_ok (k : TokenKind) (data : Claims) (d : Option Int)
    (now : Int) (key : String) (nowD : Int)
    (hsub : data.lookup "sub" = none ∨ ∃ s, data.lookup "sub" = some (JValue.str s))
    (hfresh : ¬ (now + Auth.pyTruthyTtl d k.defaultTtl) < nowD) :
    jwt_decode (k.create data d now key) key nowD = .ok (k.create data d now key).claims := by
  apply jwt_decode_ok _ _ _ (now + Auth.pyTruthyTtl d k.defaultTtl)
    (TokenKind.create_sig _ _ _ _ _) (TokenKind.create_lookup_exp _ _ _ _ _) hfresh
  rw [TokenKind.create_lookup_other _ _ _ _ _ _ (by decide) (by decide) (by decide)]
  exact hsub

/-- C1 counterexample: a valid, unexpired token of scope access_token,
minted at time 0 for subject a@x.com, satisfies the email-verification
decode path — get_email_from_token returns its subject instead of failing,
because that path never reads the scope claim. -/
theorem email_decode_accepts_access_scope :
    Auth.get_email_from_token
        (Auth.create_access_token [("sub", JValue.str "a@x.com")] none 0 "k") "k" 0 =
      .ok (JValue.str "a@x.com") := by
  decide

/-- C1 amended: the access decode path (get_current_user) and the refresh
decode path (decode_refresh_token) fail with a 401 error whenever the
signature does not verify, the token is expired, or the scope claim
differs from the expected tag — so access and refresh tokens are rejected
by each other's decode regardless of signature validity — but the
email-verification decode performs no scope check: any validly signed,
unexpired token carrying a string subject decodes successfully there,
whatever its scope. -/
theorem scope_checks_by_decode_path :
    (∀ (t : Token) (key : String) (now : Int) (cache : RedisCache) (db : Db),
        t.sig ≠ sigOf key t.claims →
        (Auth.get_current_user t key now cache db).result = .httpError credentials_exception ∧
        Auth.decode_refresh_token t key now = .httpError credentials_exception) ∧
    (∀ (t : Token) (key : String) (now : Int) (cache : RedisCache) (db : Db) (e : Int),
        t.claims.lookup "exp" = some (JValue.num e) → e < now →
        (Auth.get_current_user t key now cache db).result = .httpError credentials_exception ∧
        Auth.decode_refresh_token t key now = .httpError credentials_exception) ∧
    (∀ (data : Claims) (d : Option Int) (now nowD : Int) (key : String) (s : String),
        data.lookup "sub" = some (JValue.str s) →
        ¬ (now + Auth.pyTruthyTtl d 900) < nowD →
        Auth.decode_refresh_token (Auth.create_access_token data d now key) key nowD =
          .httpError ⟨401, "Invalid scope for token"⟩) ∧
    (∀ (data : Claims) (d : Option Int) (now nowD : Int) (key : String)
        (cache : RedisCache) (db : Db) (s : String),
        data.lookup "sub" = some (JValue.str s) →
        ¬ (now + Auth.pyTruthyTtl d 604800) < nowD →
        (Auth.get_current_user (Auth.create_refresh_token data d now key) key nowD
            cache db).result = .httpError credentials_exception) ∧
    (∀ (data : Claims) (d : Option Int) (now nowD : Int) (key : String) (s : String),
        data.lookup "sub" = some (JValue.str s) →
        ¬ (now + Auth.pyTruthyTtl d 900) < nowD →
        Auth.get_email_from_token (Auth.create_access_token data d now key) key nowD =
          .ok (JValue.str s)) := by
  refine ⟨?_, ?_, ?_, ?_, ?_⟩
  · intro t key now cache db hsig
    have herr := jwt_decode_sig_fail t key now hsig
    constructor
    · rw [get_current_user_decode_error t key now cache db _ herr]
    · exact decode_refresh_token_decode_error t key now _ herr
  · intro t key now cache db e hexp hlt
    obtain ⟨err, herr⟩ := jwt_decode_expired_any t key now e hexp hlt
    constructor
    · rw [get_current_user_decode_error t key now cache db _ herr]
    · exact decode_refresh_token_decode_error t key now _ herr
  · intro data d now nowD key s hsub hfresh
    have hdec : jwt_decode (Auth.create_access_token data d now key) key nowD =
        .ok (Auth.create_access_token data d now key).claims :=
      jwt_decode_create_ok .access data d now key nowD (Or.inr ⟨s, hsub⟩) hfresh
    have hsc : (Auth.create_access_token data d now key).claims.lookup "scope" =
        some (JValue.str "access_token") :=
      TokenKind.create_lookup_scope .access data d now key
    exact decode_refresh_token_wrong_scope _ _ _ _ _ hdec hsc (by decide)
  · intro data d now nowD key cache db s hsub hfresh
    have hdec : jwt_decode (Auth.create_refresh_token data d now key) key nowD =
        .ok (Auth.create_refresh_token data d now key).claims :=
      jwt_decode_create_ok .refresh data d now key nowD (Or.inr ⟨s, hsub⟩) hfresh
    have hsc : (Auth.create_refresh_token data d now key).claims.lookup "scope" =
        some (JValue.str "refresh_token") :=
      TokenKind.create_lookup_scope .refresh data d now key
    rw [get_current_user_wrong_scope _ _ _ cache db _ _ hdec hsc (by decide)]
  · intro data d now nowD key s hsub hfresh
    have hdec : jwt_decode (Auth.create_access_token data d now key) key nowD =
        .ok (Auth.create_access_token data d now key).claims :=
      jwt_decode_create_ok .access data d now key nowD (Or.inr ⟨s, hsub⟩) hfresh
    have hsub2 : (Auth.create_access_token data d now key).claims.lookup "sub" =
        some (JValue.str s) :=
      (TokenKind.create_lookup_other .access data d now key "sub"
        (by decide) (by decide) (by decide)).trans hsub
    unfold Auth.get_email_from_token
    rw [hdec]
    simp [hsub2]

/-- C1 amended witness: cross-scope rejection and email-path acceptance
evaluated for concrete tokens minted at time 0 and decoded at time 10. -/
theorem scope_checks_by_decode_path_witness :
    Auth.decode_refresh_token
        (Auth.create_access_token [("sub", JValue.str "b@x.com")] none 0 "s2") "s2" 10 =
      .httpError ⟨401, "Invalid scope for token"⟩ ∧
    (Auth.get_current_user (Auth.create_refresh_token [("sub", JValue.str "b@x.com")] none 0 "s2")
        "s2" 10 ⟨[]⟩ []).result = .httpError credentials_exception ∧
    Auth.get_email_from_token
        (Auth.create_access_token [("sub", JValue.str "b@x.com")] none 0 "s2") "s2" 10 =
      .ok (JValue.str "b@x.com") :=
  ⟨scope_checks_by_decode_path.2.2.1 [("sub", JValue.str "b@x.com")] none 0 10 "s2" "b@x.com"
      (by decide) (by decide),
   scope_checks_by_decode_path.2.2.2.1 [("sub", JValue.str "b@x.com")] none 0 10 "s2" ⟨[]⟩ []
      "b@x.com" (by decide) (by decide),
   scope_checks_by_decode_path.2.2.2.2 [("sub", JValue.str "b@x.com")] none 0 10 "s2" "b@x.com"
      (by decide) (by decide)⟩

/-- C4 counterexample: a wrong-scope refresh decode raises 401 with detail
Invalid scope for token, which differs from the generic could-not-validate
message, so the failure reason is distinguished to the client. -/
theorem refresh_decode_distinct_message :
    Auth.decode_refresh_token
        (Auth.create_access_token [("sub", JValue.str "a@x.com")] none 0 "k") "k" 0 =
      .httpError ⟨401, "Invalid scope for token"⟩ ∧
    (⟨401, "Invalid scope for token"⟩ : HTTPError) ≠ credentials_exception :=
  ⟨by decide, by decide⟩

/-- C4 amended: every HTTP error raised by get_current_user is the 401
credentials exception with the generic message, and every HTTP error
raised by decode_refresh_token is a 401 whose detail is either the
generic message (JWT errors) or Invalid scope for token (wrong scope) —
so all such failures are 401, but the refresh path does distinguish the
wrong-scope reason. -/
theorem auth_failures_all_401 :
    (∀ (t : Token) (key : String) (now : Int) (cache : RedisCache) (db : Db) (e : HTTPError),
        (Auth.get_current_user t key now cache db).result = .httpError e →
        e = credentials_exception) ∧
    (∀ (t : Token) (key : String) (now : Int) (e : HTTPError),
        Auth.decode_refresh_token t key now = .httpError e →
        e.status = 401 ∧
        (e = credentials_exception ∨ e = ⟨401, "Invalid scope for token"⟩)) := by
  constructor
  · intro t key now cache db e h
    unfold Auth.get_current_user at h
    repeat' split at h
    all_goals simp_all [credentials_exception]
    all_goals repeat' split at h
    all_goals simp_all [credentials_exception]
  · intro t key now e h
    unfold Auth.decode_refresh_token at h
    repeat' split at h
    all_goals simp_all [credentials_exception]
    all_goals rw [← h]

/-- C4 amended witness: the two characterizations applied to a token whose
exp claim is malformed (a 401 with the generic message) and to an access
token fed to the refresh decode (a 401 with the wrong-scope message). -/
theorem auth_failures_all_401_witness :
    (credentials_exception = credentials_exception) ∧
    ((⟨401, "Invalid scope for token"⟩ : HTTPError).status = 401 ∧
      ((⟨401, "Invalid scope for token"⟩ : HTTPError) = credentials_exception ∨
       (⟨401, "Invalid scope for token"⟩ : HTTPError) = ⟨401, "Invalid scope for token"⟩)) :=
  ⟨auth_failures_all_401.1 ⟨[("exp", JValue.str "zzz")], 0⟩ "k" 0 ⟨[]⟩ [] credentials_exception
      (by decide),
   auth_failures_all_401.2 (Auth.create_access_token [("sub", JValue.str "a@x.com")] none 0 "k")
      "k" 0 ⟨401, "Invalid scope for token"⟩ (by decide)⟩

/-- C5 counterexample: a cryptographically valid, unexpired access token
whose payload has no sub key makes get_current_user raise an uncaught
KeyError — not the 401 Unauthenticated the claim requires. -/
theorem missing_sub_keyerror :
    (Auth.get_current_user (Auth.create_access_token [] none 0 "k") "k" 0 ⟨[]⟩ []).result =
      .pyError "KeyError" ∧
    (Auth.get_current_user (Auth.create_access_token [] none 0 "k") "k" 0 ⟨[]⟩ []).result ≠
      .httpError credentials_exception :=
  ⟨by decide, by decide⟩

/-- C5 amended: for a valid, unexpired access token, an absent sub claim
makes get_current_user raise an uncaught KeyError (payload["sub"] is
indexed inside a try that catches only JWTError), while a sub claim equal
to null fails with the 401 credentials exception, because python-jose
rejects any token whose sub claim is present and not a string. -/
theorem sub_claim_handling :
    (∀ (data : Claims) (d : Option Int) (now nowD : Int) (key : String)
        (cache : RedisCache) (db : Db),
        data.lookup "sub" = none →
        ¬ (now + Auth.pyTruthyTtl d 900) < nowD →
        Auth.get_current_user (Auth.create_access_token data d now key) key nowD cache db =
          ⟨.pyError "KeyError", cache, 0⟩) ∧
    (∀ (t : Token) (key : String) (now : Int) (cache : RedisCache) (db : Db),
        t.claims.lookup "sub" = some JValue.null →
        (Auth.get_current_user t key now cache db).result = .httpError credentials_exception) := by
  constructor
  · intro data d now nowD key cache db hnone hfresh
    have hdec : jwt_decode (Auth.create_access_token data d now key) key nowD =
        .ok (Auth.create_access_token data d now key).claims :=
      jwt_decode_create_ok .access data d now key nowD (Or.inl hnone) hfresh
    have hsc : (Auth.create_access_token data d now key).claims.lookup "scope" =
        some (JValue.str "access_token") :=
      TokenKind.create_lookup_scope .access data d now key
    have hsub2 : (Auth.create_access_token data d now key).claims.lookup "sub" = none :=
      (TokenKind.create_lookup_other .access data d now key "sub"
        (by decide) (by decide) (by decide)).trans hnone
    unfold Auth.get_current_user
    rw [hdec]
    simp [hsc, hsub2]
  · intro t key now cache db hnull
    obtain ⟨err, herr⟩ := jwt_decode_null_sub_any t key now hnull
    rw [get_current_user_decode_error t key now cache db err herr]

/-- C5 amended witness: the KeyError outcome for a concrete subject-free
access token, and the 401 outcome for a concrete token with sub = null. -/
theorem sub_claim_handling_witness :
    Auth.get_current_user (Auth.create_access_token [("x", JValue.num 1)] none 5 "secret")
        "secret" 5 ⟨[]⟩ [] = ⟨.pyError "KeyError", ⟨[]⟩, 0⟩ ∧
    (Auth.get_current_user ⟨[("sub", JValue.null)], 3⟩ "secret" 5 ⟨[]⟩ []).result =
      .httpError credentials_exception :=
  ⟨sub_claim_handling.1 [("x", JValue.num 1)] none 5 5 "secret" ⟨[]⟩ [] (by decide) (by decide),
   sub_claim_handling.2 ⟨[("sub", JValue.null)], 3⟩ "secret" 5 ⟨[]⟩ [] (by decide)⟩

theorem cache_set_expire_get (cache : RedisCache) (k : String) (v : Pickled)
    (ttl now t : Int) :
    ((cache.set k v).expire k ttl now).get k t = if t < now + ttl then some v else none := by
  unfold RedisCache.set RedisCache.expire RedisCache.get
  simp [cacheFind]

/-- C3: on a cache miss for the subject email of a valid access token, a
store answer of none makes the resolution fail with the 401 credentials
exception and leave the cache unchanged, while a store answer of a user
populates the cache under the email key with the pickled snapshot of that
user and a deadline 300 seconds from the lookup time — a later read of
that key returns the snapshot exactly before the deadline — and returns
the user; either way exactly one store lookup happens. -/
theorem cache_miss_populates (data : Claims) (d : Option Int) (now nowD : Int)
    (key : String) (cache : RedisCache) (db : Db) (email : String)
    (hsub : data.lookup "sub" = some (.str email))
    (hfresh : ¬ (now + Auth.pyTruthyTtl d 900) < nowD)
    (hmiss : cache.get email nowD = none) :
    (get_user_by_email email db = none →
      Auth.get_current_user (Auth.create_access_token data d now key) key nowD cache db =
        ⟨.httpError credentials_exception, cache, 1⟩) ∧
    (∀ u, get_user_by_email email db = some u →
      Auth.get_current_user (Auth.create_access_token data d now key) key nowD cache db =
        ⟨.ok u, (cache.set email (pickle_dumps u)).expire email 300 nowD, 1⟩ ∧
      ∀ t, ((cache.set email (pickle_dumps u)).expire email 300 nowD).get email t =
        if t < nowD + 300 then some (pickle_dumps u) else none) := by
  have hmain := get_current_user_access_ok data d now nowD key cache db email hsub hfresh
  rw [hmiss] at hmain
  constructor
  · intro hdb
    rw [hmain, hdb]
  · intro u hdb
    rw [hmain, hdb]
    exact ⟨rfl, fun t => cache_set_expire_get cache email (pickle_dumps u) 300 nowD t⟩

/-- C3 witness: the miss-then-populate outcome evaluated with an empty
cache and a one-user store. -/
theorem cache_miss_populates_witness :
    Auth.get_current_user
        (Auth.create_access_token [("sub", JValue.str "c@x.com")] none 0 "w") "w" 0 ⟨[]⟩
        [⟨2, "bob", "c@x.com", "h2", none, none, Role.admin, false⟩] =
      ⟨.ok ⟨2, "bob", "c@x.com", "h2", none, none, Role.admin, false⟩,
        ((⟨[]⟩ : RedisCache).set "c@x.com"
          (pickle_dumps ⟨2, "bob", "c@x.com", "h2", none, none, Role.admin, false⟩)).expire
          "c@x.com" 300 0, 1⟩ :=
  ((cache_miss_populates [("sub", JValue.str "c@x.com")] none 0 0 "w" ⟨[]⟩
      [⟨2, "bob", "c@x.com", "h2", none, none, Role.admin, false⟩] "c@x.com"
      (by decide) (by decide) (by decide)).2
    ⟨2, "bob", "c@x.com", "h2", none, none, Role.admin, false⟩ (by decide)).1

/-- C7: on a cache hit for the subject email of a valid access token, the
resolution performs zero store lookups, writes nothing to the cache — the
cache state is returned exactly as it was — and answers with the
deserialized cached snapshot. -/
theorem cache_hit_no_lookup (data : Claims) (d : Option Int) (now nowD : Int)
    (key : String) (cache : RedisCache) (db : Db) (email : String) (blob : Pickled)
    (hsub : data.lookup "sub" = some (.str email))
    (hfresh : ¬ (now + Auth.pyTruthyTtl d 900) < nowD)
    (hhit : cache.get email nowD = some blob) :
    Auth.get_current_user (Auth.create_access_token data d now key) key nowD cache db =
      ⟨.ok (pickle_loads blob), cache, 0⟩ := by
  rw [get_current_user_access_ok data d now nowD key cache db email hsub hfresh, hhit]

/-- C7 witness: a cache hit evaluated against an empty user store — the
user is still returned and the store is never consulted. -/
theorem cache_hit_no_lookup_witness :
    Auth.get_current_user
        (Auth.create_access_token [("sub", JValue.str "c@x.com")] none 0 "w") "w" 0
        ⟨[("c@x.com", pickle_dumps ⟨2, "bob", "c@x.com", "h2", none, none, Role.admin, false⟩,
          some 50)]⟩ [] =
      ⟨.ok ⟨2, "bob", "c@x.com", "h2", none, none, Role.admin, false⟩,
        ⟨[("c@x.com", pickle_dumps ⟨2, "bob", "c@x.com", "h2", none, none, Role.admin, false⟩,
          some 50)]⟩, 0⟩ :=
  cache_hit_no_lookup [("sub", JValue.str "c@x.com")] none 0 0 "w"
    ⟨[("c@x.com", pickle_dumps ⟨2, "bob", "c@x.com", "h2", none, none, Role.admin, false⟩,
      some 50)]⟩ []
    "c@x.com" (pickle_dumps ⟨2, "bob", "c@x.com", "h2", none, none, Role.admin, false⟩)
    (by decide) (by decide) (by decide)

end ContactBook
